import Mathlib

/-!
Shallow embedding of src/astrobase/checkplotserver_handlers.py.

The handlers operate on JSON-like dictionaries (checkplot pickles,
response envelopes, the project manifest).  We model those values with
the inductive type JVal below; dictionaries are association lists in
insertion order, matching Python dict semantics.  Numbers are modelled
by Int (no claim computes with floats).  Byte strings and their
.decode() are modelled by plain strings (decode is the identity here).
-/

inductive JVal : Type where
  | null : JVal
  | bool : Bool → JVal
  | num : Int → JVal
  | str : String → JVal
  | arr : List JVal → JVal
  | obj : List (String × JVal) → JVal

abbrev JObj := List (String × JVal)

/-- Python dict lookup: first entry with the given key. -/
def jlookup (o : JObj) (k : String) : Option JVal :=
  (o.find? (fun p => p.fst == k)).map (fun p => p.snd)

/-- The on-disk store of checkplot pickle files: path to record contents.
os.path.exists and the pickle codec are modelled through this map. -/
abbrev FS := List (String × JObj)

def fsLookup (fs : FS) (path : String) : Option JObj :=
  (fs.find? (fun p => p.fst == path)).map (fun p => p.snd)

/-- Writing a record file: the new binding shadows any older one. -/
def fsWrite (fs : FS) (path : String) (r : JObj) : FS :=
  (path, r) :: fs

example : jlookup [("a", JVal.num 1), ("b", JVal.null)] "b" = some JVal.null := rfl
example : jlookup [("a", JVal.num 1)] "c" = none := rfl

/-!
Response envelopes.  Every handler replies with a dict written as JSON.
Most envelopes carry the four keys status/message/readonly/result, but
the missing-record-file branches of CheckplotHandler.get (lines 170-172)
and LCToolHandler.get (lines 630-632) build a dict without the readonly
key; errEnvNoRO models those two literals.
-/

/-- Error envelope with the readonly key (the common shape in the file). -/
def errEnv (msg : String) (readonly : Bool) : JObj :=
  [("status", JVal.str "error"),
   ("message", JVal.str msg),
   ("readonly", JVal.bool readonly),
   ("result", JVal.null)]

/-- Error envelope without the readonly key, as written in the
missing-checkplot-file branches of the two GET handlers. -/
def errEnvNoRO (msg : String) : JObj :=
  [("status", JVal.str "error"),
   ("message", JVal.str msg),
   ("result", JVal.null)]

/-- An envelope has all four fields status, message, readonly, result. -/
def envComplete (e : JObj) : Bool :=
  (jlookup e "status").isSome && (jlookup e "message").isSome &&
  (jlookup e "readonly").isSome && (jlookup e "result").isSome

/-!
CheckplotHandler.get (lines 139-291): the load operation.

The handler decodes and xhtml-escapes the URL component; we take the
already-decoded checkplot name as input (escaping is presentation
plumbing and is the identity on ordinary file names).  cpfpath is
os.path.join of the directory of the checkplot list file and the name;
we pass that directory as the basedir parameter and concatenate.

Python float() applied to the period/epoch entries succeeds on numbers
and raises otherwise; bytes .decode() is the identity in the model.
-/

def floatOf (v : JVal) : Option JVal :=
  match v with
  | JVal.num n => some (JVal.num n)
  | _ => none

/-- One phasedlcN sub-object of the envelope: cpdict[key][idx] must be a
dict with plot, period, epoch; period and epoch go through float(). -/
def phasedLCObj (pg : JObj) (idx : String) : Option JObj := do
  match (← jlookup pg idx) with
  | JVal.obj eo => do
      let plot ← jlookup eo "plot"
      let per ← floatOf (← jlookup eo "period")
      let ep ← floatOf (← jlookup eo "epoch")
      pure [("plot", plot), ("period", per), ("epoch", ep)]
  | _ => none

/-- The per-method entry added to resultdict for a present method key
(lines 228-265).  A missing inner key raises in the handler, which the
Option models. -/
def methodBundle (pg : JObj) : Option JVal := do
  let pgram ← jlookup pg "periodogram"
  let l0 ← phasedLCObj pg "0"
  let l1 ← phasedLCObj pg "1"
  let l2 ← phasedLCObj pg "2"
  let nbest ← jlookup pg "nbestperiods"
  let bestp ← jlookup pg "bestperiod"
  pure (JVal.obj
    [("nbestperiods", nbest), ("periodogram", pgram), ("bestperiod", bestp),
     ("phasedlc0", JVal.obj l0), ("phasedlc1", JVal.obj l1),
     ("phasedlc2", JVal.obj l2)])

/-- The fixed iteration order of line 226. -/
def methodKeys : List String := ["pdm", "aov", "bls", "gls", "sls"]

/-- The loop over method keys: present keys contribute a bundle, in
order; a present key whose bundle is malformed raises. -/
def collectMethods (cpdict : JObj) : List String → Option JObj
  | [] => some []
  | k :: rest =>
      match jlookup cpdict k with
      | none => collectMethods cpdict rest
      | some (JVal.obj pg) => do
          let b ← methodBundle pg
          let tail ← collectMethods cpdict rest
          pure ((k, b) :: tail)
      | some _ => none

/-- The pieces of cpdict the ok-envelope of the load operation reads. -/
structure LoadParts where
  objectid : JVal
  objectinfo : JVal
  objectcomments : JVal
  varinfo : JVal
  finderchart : JVal
  msplot : JVal
  ndet : Nat
  cpstatus : JVal
  methods : JObj

/-- Extraction of LoadParts from the loaded cpdict (lines 186-226).
comments is optional (None when absent); every other access raises on a
missing key, which the Option models. -/
def assembleParts (cpdict : JObj) : Option LoadParts := do
  let objectid ← jlookup cpdict "objectid"
  let objectinfo ← jlookup cpdict "objectinfo"
  let varinfo ← jlookup cpdict "varinfo"
  let objectcomments := (jlookup cpdict "comments").getD JVal.null
  let finderchart ← jlookup cpdict "finderchart"
  match (← jlookup cpdict "magseries") with
  | JVal.obj ms => do
      let msplot ← jlookup ms "plot"
      match (← jlookup ms "times") with
      | JVal.arr ts => do
          let cpstatus ← jlookup cpdict "status"
          let methods ← collectMethods cpdict methodKeys
          pure { objectid := objectid, objectinfo := objectinfo,
                 objectcomments := objectcomments, varinfo := varinfo,
                 finderchart := finderchart, msplot := msplot,
                 ndet := ts.length, cpstatus := cpstatus,
                 methods := methods }
      | _ => none
  | _ => none

/-- The ok envelope of the load operation (lines 208-265): the method
bundles are inserted inside result, so the top level always has exactly
status, message, readonly, result. -/
def loadOkEnvelope (readonly : Bool) (name : String) (p : LoadParts) : JObj :=
  [("status", JVal.str "ok"),
   ("message", JVal.str ("found checkplot " ++ name)),
   ("readonly", JVal.bool readonly),
   ("result", JVal.obj
      ([("objectid", p.objectid),
        ("objectinfo", p.objectinfo),
        ("objectcomments", p.objectcomments),
        ("varinfo", p.varinfo),
        ("finderchart", p.finderchart),
        ("magseries", p.msplot),
        ("magseries_ndet", JVal.num p.ndet),
        ("cpstatus", p.cpstatus)] ++ p.methods))]

def assembleLoadEnvelope (readonly : Bool) (name : String) (cpdict : JObj) :
    Option JObj :=
  (assembleParts cpdict).map (loadOkEnvelope readonly name)

/-- Observable outcome of a GET handler: the envelopes written (in
order), the number of executor.submit calls, the storage paths touched
(os.path.exists checks and pickle reads), and whether an exception left
the handler uncaught (CheckplotHandler.get has no try/except). -/
structure GetOut where
  responses : List JObj
  submissions : Nat
  fsTouches : List String
  raised : Bool

/-- CheckplotHandler.get.  Faithful to the source control flow: the
missing-file branch (lines 166-175) writes its envelope and finishes but
does not return, so the handler still submits the pickle read to the
executor; reading a missing file raises, and with no try/except the
exception propagates out of the handler. -/
def checkplotGet (readonly : Bool) (checkplots : List String) (fs : FS)
    (basedir : String) (checkplotfname : Option String) : GetOut :=
  match checkplotfname with
  | none =>
      { responses := [errEnv "No checkplot provided to load." readonly],
        submissions := 0, fsTouches := [], raised := false }
  | some name =>
      if name ∈ checkplots then
        let cpfpath := basedir ++ name
        let preResp :=
          if (fsLookup fs cpfpath).isNone then
            [errEnvNoRO ("couldn\x27t find checkplot " ++ cpfpath)]
          else []
        match fsLookup fs cpfpath with
        | none =>
            { responses := preResp, submissions := 1,
              fsTouches := [cpfpath, cpfpath], raised := true }
        | some cpdict =>
            match assembleLoadEnvelope readonly name cpdict with
            | none =>
                { responses := preResp, submissions := 1,
                  fsTouches := [cpfpath, cpfpath], raised := true }
            | some env =>
                { responses := preResp ++ [env], submissions := 1,
                  fsTouches := [cpfpath, cpfpath], raised := false }
      else
        { responses := [errEnv "This checkplot doesn\x27t exist." readonly],
          submissions := 0, fsTouches := [], raised := false }

/-!
CheckplotHandler.post (lines 293-423): the update operation.

The whole body after the readonly guard sits in one try/except.  The
readonly guard (lines 306-315) and the missing-payload and missing-file
branches (lines 324-333, 351-361) each write an envelope and call
self.finish() but do not return, so execution falls through.  A
tornado write() after finish() raises; inside the try that lands in the
except handler, and a write() raising inside the except handler
propagates out of the handler.
-/

/-- The cpcontents request argument as the handler can observe it:
absent, present but empty (falsy), present but not valid JSON, or
parsed to a JSON value. -/
inductive CPContents where
  | missing : CPContents
  | emptyStr : CPContents
  | badJson : CPContents
  | ok : JVal → CPContents

/-- Python dict.update on the loaded record: keys supplied by upd
overwrite in place, new keys are appended in order.
Modelled from the spec: checkplot_pickle_update (imported from the
checkplot module, which is not part of this source tree) performs a
read-modify-write that loads the on-disk record, overlays only the
caller-supplied fields onto it and writes the merged record back. -/
def overlayEntry (upd : JObj) (p : String × JVal) : String × JVal :=
  match jlookup upd p.fst with
  | some v => (p.fst, v)
  | none => p

def overlay (old upd : JObj) : JObj :=
  old.map (overlayEntry upd) ++
    upd.filter (fun p => (jlookup old p.fst).isNone)

/-- Mutable per-request state of the post handler: envelopes written so
far, the current set_status value, the status actually sent (fixed at
the first finish), whether the response is finished, the number of
executor.submit calls, and the record store. -/
structure PSt where
  responses : List JObj
  curStatus : Nat
  sentStatus : Nat
  finished : Bool
  submissions : Nat
  fs : FS

/-- self.write: raises (Except.error, carrying the state) when the
response is already finished. -/
def pWriteE (st : PSt) (e : JObj) : Except PSt PSt :=
  if st.finished then Except.error st
  else Except.ok { st with responses := st.responses ++ [e] }

/-- self.finish: locks in the status code that was sent. -/
def pFinish (st : PSt) : PSt :=
  if st.finished then st
  else { st with finished := true, sentStatus := st.curStatus }

/-- Truthiness of an optional string argument (absent or empty is falsy). -/
def truthyOpt : Option String → Bool
  | none => false
  | some s => s != ""

/-- The success envelope of the update operation (lines 372-378, with
the cpfpng field possibly overwritten by lines 390-393). -/
def updateOkEnvelope (readonly : Bool) (cpfpath : String) (now : Int)
    (changes : JVal) (cpfpng : JVal) : JObj :=
  [("status", JVal.str "success"),
   ("message", JVal.str "checkplot update successful"),
   ("readonly", JVal.bool readonly),
   ("result", JVal.obj
      [("checkplot", JVal.str cpfpath),
       ("unixtime", JVal.num now),
       ("changes", changes),
       ("cpfpng", cpfpng)])]

/-- Write an envelope and finish the response: the pattern of every
responding branch of the post handler.  When the response was already
finished the write raises instead. -/
def respondFinish (st : PSt) (env : JObj) : Except PSt PSt :=
  match pWriteE st env with
  | Except.error s => Except.error s
  | Except.ok s => Except.ok (pFinish s)

/-- Lines 324-333: `if not self.cpfile or not cpcontents` writes a 400
envelope and finishes but does not return (falls through). -/
def postStepMissing (readonly : Bool) (cpfile : String) (c : CPContents)
    (st : PSt) : Except PSt PSt :=
  if cpfile == "" ||
      (match c with
       | CPContents.missing => true
       | CPContents.emptyStr => true
       | _ => false) then
    respondFinish { st with curStatus := 400 }
      (errEnv "did not receive a checkplot update payload" readonly)
  else Except.ok st

/-- Lines 351-361: the missing-file branch writes its envelope and
finishes but does not return (falls through). -/
def postStepNF (readonly : Bool) (cpfpath : String) (st : PSt) :
    Except PSt PSt :=
  if (fsLookup st.fs cpfpath).isNone then
    respondFinish st
      (errEnv ("couldn\x27t find checkplot " ++ cpfpath) readonly)
  else Except.ok st

/-- Lines 364-397: submit checkplot_pickle_update to the pool (on a
missing file the pickle read inside it raises), then the success branch,
with the optional savetopng render submission. -/
def postStepMerge (readonly : Bool) (cpfpath : String) (j updated : JObj)
    (savetopng : Option String) (renderOk : Bool) (now : Int) (st : PSt) :
    Except PSt PSt :=
  let st1 := { st with submissions := st.submissions + 1 }
  match fsLookup st1.fs cpfpath with
  | none => Except.error st1
  | some oldcp =>
    let merged := overlay oldcp updated
    let st2 := { st1 with fs := fsWrite st1.fs cpfpath merged }
    -- checkplot_pickle_update returned the written path (truthy)
    if truthyOpt savetopng then
      let cpfpng := String.replace cpfpath ".pkl" ".png"
      let st3 := { st2 with submissions := st2.submissions + 1 }
      let pngval :=
        if renderOk then JVal.str cpfpng else JVal.str "png making failed"
      respondFinish st3 (updateOkEnvelope readonly cpfpath now (JVal.obj j)
        pngval)
    else
      respondFinish st2 (updateOkEnvelope readonly cpfpath now (JVal.obj j)
        JVal.null)

/-- The body of the try block of CheckplotHandler.post (lines 318-409).
Except.error st means an exception was raised with observable state st.
renderOk is whether checkplot_pickle_to_png leaves the png file on disk
(the handler only inspects os.path.exists on it); now is time.time(). -/
def checkplotPostTry (readonly : Bool) (basedir : String) (cpfile : String)
    (cpcontents : CPContents) (savetopng : Option String) (renderOk : Bool)
    (now : Int) (st : PSt) : Except PSt PSt :=
  match postStepMissing readonly cpfile cpcontents st with
  | Except.error s => Except.error s
  | Except.ok st =>
    -- line 335: json.loads raises on an absent, empty or malformed payload
    match cpcontents with
    | CPContents.missing => Except.error st
    | CPContents.emptyStr => Except.error st
    | CPContents.badJson => Except.error st
    | CPContents.ok v =>
      match v with
      | JVal.obj j =>
        -- lines 339-341: subscripting raises if any of the three keys
        -- is missing from the payload
        match jlookup j "varinfo", jlookup j "objectinfo",
              jlookup j "comments" with
        | some vi, some oi, some cm =>
          match postStepNF readonly (basedir ++ cpfile) st with
          | Except.error s => Except.error s
          | Except.ok st =>
              postStepMerge readonly (basedir ++ cpfile) j
                [("varinfo", vi), ("objectinfo", oi), ("comments", cm)]
                savetopng renderOk now st
        | _, _, _ => Except.error st
      | _ => Except.error st

/-- Observable outcome of the update operation. -/
structure PostOut where
  responses : List JObj
  sentStatus : Nat
  submissions : Nat
  fs : FS
  raised : Bool

def PSt.toOut (st : PSt) (raised : Bool) : PostOut :=
  { responses := st.responses,
    sentStatus :=
      if st.finished then st.sentStatus
      else if raised then 500 else st.curStatus,
    submissions := st.submissions, fs := st.fs, raised := raised }

/-- The except handler of CheckplotHandler.post (lines 412-423): a
normally returning body yields its outcome; a raised exception is
answered with status 500 and the exception envelope — whose own write
raises in turn (and so propagates) when the response was already
finished. -/
def postExceptHandler (readonly : Bool) (r : Except PSt PSt) : PostOut :=
  match r with
  | Except.ok st => st.toOut false
  | Except.error st =>
      let st2 := { st with curStatus := 500 }
      match pWriteE st2
          (errEnv "checkplot update failed because of an exception"
            readonly) with
      | Except.error s => s.toOut true
      | Except.ok s => (pFinish s).toOut false

/-- CheckplotHandler.post.  The readonly guard writes its 400 envelope
and finishes but does not return; the body then runs inside the
try/except. -/
def checkplotPost (readonly : Bool) (fs : FS) (basedir : String)
    (cpfile : String) (cpcontents : CPContents) (savetopng : Option String)
    (renderOk : Bool) (now : Int) : PostOut :=
  let st0 : PSt :=
    { responses := [], curStatus := 200, sentStatus := 200,
      finished := false, submissions := 0, fs := fs }
  -- lines 306-315: readonly guard, no return
  let roEnv :=
    errEnv "checkplotserver is in readonly mode. no updates allowed." readonly
  let st1 :=
    if readonly then
      pFinish { st0 with curStatus := 400, responses := [roEnv] }
    else st0
  postExceptHandler readonly
    (checkplotPostTry readonly basedir cpfile cpcontents savetopng
      renderOk now st1)

/-!
LCToolHandler.get (lines 560-672): the tool-dispatch operation.

The docstring describes lctool and toolargs URI arguments (psearch-gls,
psearch-bls, psearch-pdm, psearch-aov, the phased-lc and simple-lc
functions, with startp/endp/magsarefluxes/... keyword args), but the
body never reads them: it resolves the checkplot against the project
list, submits the pickle read to the executor, and then ends (lines
643-651 contain only comments).  We pass the raw URI arguments through
as a parameter so the embedding exhibits that they are ignored.  As in
CheckplotHandler.get, the missing-file branch (lines 626-635) does not
return, and there is no try/except around the executor call.
-/

def lctoolGet (readonly : Bool) (checkplots : List String) (fs : FS)
    (basedir : String) (cpfile : Option String)
    (uriArgs : List (String × String)) : GetOut :=
  match cpfile with
  | none =>
      { responses := [errEnv "No checkplot provided to load." readonly],
        submissions := 0, fsTouches := [], raised := false }
  | some name =>
      if name ∈ checkplots then
        let cpfpath := basedir ++ name
        let preResp :=
          if (fsLookup fs cpfpath).isNone then
            [errEnvNoRO ("couldn\x27t find checkplot " ++ cpfpath)]
          else []
        match fsLookup fs cpfpath with
        | none =>
            { responses := preResp, submissions := 1,
              fsTouches := [cpfpath, cpfpath], raised := true }
        | some _ =>
            -- the pickle is loaded and then nothing is done with it or
            -- with uriArgs; tornado auto-finishes with an empty reply
            { responses := [], submissions := 1,
              fsTouches := [cpfpath, cpfpath], raised := false }
      else
        { responses := [errEnv "This checkplot doesn\x27t exist." readonly],
          submissions := 0, fsTouches := [], raised := false }

/-!
CheckplotListHandler (lines 427-531): the manifest read and write.

currentproject is the shared in-memory project dict (cplist), whose
checkplots key lists the record identifiers.  The POST rewrites the
checkplot-filelist.json file in full with json.dump.
-/

/-- CheckplotListHandler.get (lines 452-464): inserts an empty reviewed
dict into the shared project dict when absent, then writes the dict out
as the response.  Returns (shared state afterwards, response body). -/
def cplistGet (currentproject : JObj) : JObj × JObj :=
  let p :=
    if (jlookup currentproject "reviewed").isNone then
      currentproject ++ [("reviewed", JVal.obj [])]
    else currentproject
  (p, p)

/-- Python dict item assignment: replace in place or append. -/
def dictSet (o : JObj) (k : String) (v : JVal) : JObj :=
  if (jlookup o k).isNone then o ++ [(k, v)]
  else o.map (fun p => if p.fst == k then (p.fst, v) else p)

/-- Lines 511-514: ensure the reviewed key, then assign
currentproject[reviewed][objectid] = changes.  none models the TypeError
when a present reviewed entry is not a dict. -/
def setReviewed (p : JObj) (oid : String) (ch : JVal) : Option JObj :=
  let p1 :=
    if (jlookup p "reviewed").isNone then p ++ [("reviewed", JVal.obj [])]
    else p
  match jlookup p1 "reviewed" with
  | some (JVal.obj rv) =>
      some (p1.map (fun q =>
        if q.fst == "reviewed" then ("reviewed", JVal.obj (dictSet rv oid ch))
        else q))
  | _ => none

/-- Observable outcome of CheckplotListHandler.post: envelopes written,
status sent, shared project dict afterwards, the successive contents
written to the checkplot list file, and whether an exception propagated
(this post has no try/except at all). -/
structure ListPostOut where
  responses : List JObj
  sentStatus : Nat
  project : JObj
  manifestWrites : List JObj
  raised : Bool

/-- CheckplotListHandler.post.  The readonly guard (lines 477-486) and
the missing-argument branch (lines 493-503) write and finish without
returning, so execution falls through: with both arguments present the
handler escapes objectid, parses changes, mutates the shared project
dict, rewrites the manifest file, and only then attempts the success
write, which raises if an earlier branch already finished the
response. -/
def cplistPost (readonly : Bool) (currentproject : JObj)
    (objectid : Option String) (changes : CPContents) : ListPostOut :=
  let roEnv :=
    errEnv "checkplotserver is in readonly mode. no updates allowed." readonly
  let resp0 : List JObj := if readonly then [roEnv] else []
  let finished0 := readonly
  let sent0 := if readonly then 400 else 200
  let argsMissing :=
    (match objectid with
     | none => true
     | some s => s == "") ||
    (match changes with
     | CPContents.missing => true
     | CPContents.emptyStr => true
     | _ => false)
  let missEnv :=
    errEnv
      ("could not parse changes to the checkplot filelist " ++
        "from the frontend") readonly
  -- lines 493-503: write the parse-failure envelope; a write after an
  -- earlier finish raises and nothing more happens
  if argsMissing && finished0 then
    { responses := resp0, sentStatus := sent0, project := currentproject,
      manifestWrites := [], raised := true }
  else
    let resp1 := if argsMissing then resp0 ++ [missEnv] else resp0
    let finished1 := finished0 || argsMissing
    -- line 507: xhtml_escape(None) raises; an ordinary name is unchanged
    match objectid with
    | none =>
        { responses := resp1, sentStatus := sent0, project := currentproject,
          manifestWrites := [], raised := true }
    | some oid =>
      -- line 508: json.loads raises on an absent, empty or malformed value
      match changes with
      | CPContents.ok ch =>
        -- lines 511-518: mutate the shared dict, rewrite the list file
        match setReviewed currentproject oid ch with
        | none =>
            { responses := resp1, sentStatus := sent0,
              project := currentproject, manifestWrites := [],
              raised := true }
        | some p1 =>
          let okEnv :=
            [("status", JVal.str "success"),
             ("message", JVal.str
               ("wrote all changes to the checkplot filelist " ++
                 "from the frontend for object: " ++ oid)),
             ("readonly", JVal.bool readonly),
             ("result", JVal.obj
               [("objectid", JVal.str oid), ("changes", ch)])]
          if finished1 then
            -- lines 524-530: the success write raises after a finish
            { responses := resp1, sentStatus := sent0, project := p1,
              manifestWrites := [p1], raised := true }
          else
            { responses := resp1 ++ [okEnv], sentStatus := 200,
              project := p1, manifestWrites := [p1], raised := false }
      | _ =>
          { responses := resp1, sentStatus := sent0,
            project := currentproject, manifestWrites := [],
            raised := true }

/-!
Concrete fixtures used by counterexamples and witnesses: a project with
one checkplot obj1.pkl, its record, and an update payload.
-/

/-- A well-formed checkplot record with one periodogram bundle. -/
def rec1 : JObj :=
  [("objectid", JVal.str "obj1"),
   ("objectinfo", JVal.obj [("ra", JVal.num 64), ("objecttags", JVal.null)]),
   ("varinfo", JVal.obj [("varperiod", JVal.num 3)]),
   ("comments", JVal.str "old comment"),
   ("finderchart", JVal.str "finderb64"),
   ("magseries", JVal.obj
      [("plot", JVal.str "magseriesb64"),
       ("times", JVal.arr [JVal.num 0, JVal.num 1, JVal.num 2])]),
   ("status", JVal.str "new"),
   ("bls", JVal.obj
      [("periodogram", JVal.str "pgramb64"),
       ("nbestperiods", JVal.arr [JVal.num 5, JVal.num 4, JVal.num 3]),
       ("bestperiod", JVal.num 5),
       ("0", JVal.obj [("plot", JVal.str "p0"), ("period", JVal.num 5),
                       ("epoch", JVal.num 100)]),
       ("1", JVal.obj [("plot", JVal.str "p1"), ("period", JVal.num 4),
                       ("epoch", JVal.num 100)]),
       ("2", JVal.obj [("plot", JVal.str "p2"), ("period", JVal.num 3),
                       ("epoch", JVal.num 100)])])]

/-- Storage holding the pickle for obj1.pkl under /project/. -/
def fs1 : FS := [("/project/obj1.pkl", rec1)]

/-- An update payload carrying the three editable fields. -/
def payload1 : JObj :=
  [("varinfo", JVal.obj [("varperiod", JVal.num 7)]),
   ("objectinfo", JVal.obj [("ra", JVal.num 64),
                            ("objecttags", JVal.str "interesting")]),
   ("comments", JVal.str "looks periodic")]

/-- The shared project dict before any review was recorded. -/
def proj1 : JObj :=
  [("checkplots", JVal.arr [JVal.str "obj1.pkl", JVal.str "obj2.pkl"])]

-- sanity checks of the embedding on the fixtures
example : (checkplotGet false ["obj1.pkl"] fs1 "/project/"
    (some "obj1.pkl")).raised = false := rfl
example : (checkplotGet false ["obj1.pkl"] fs1 "/project/"
    (some "obj1.pkl")).responses.length = 1 := rfl
example : ((checkplotGet false ["obj1.pkl"] fs1 "/project/"
    (some "obj1.pkl")).responses.map envComplete) = [true] := rfl
example : (checkplotGet false ["obj1.pkl"] [] "/project/"
    (some "obj1.pkl")).raised = true := rfl
example : (checkplotPost true fs1 "/project/" "obj1.pkl"
    (CPContents.ok (JVal.obj payload1)) none false 0).raised = true := rfl
example : (fsLookup (checkplotPost true fs1 "/project/" "obj1.pkl"
    (CPContents.ok (JVal.obj payload1)) none false 0).fs
    "/project/obj1.pkl").bind (fun r => jlookup r "comments") =
    some (JVal.str "looks periodic") := rfl
example : (cplistPost true proj1 (some "obj1")
    (CPContents.ok (JVal.str "done"))).manifestWrites.length = 1 := rfl

/-!
Lookup lemmas for association lists and the merge overlay.
-/

theorem jlookup_cons (a : String × JVal) (t : JObj) (k : String) :
    jlookup (a :: t) k = if a.fst == k then some a.snd else jlookup t k := by
  cases h : a.fst == k <;> simp [jlookup, List.find?_cons, h]

theorem jlookup_append_some {l1 : JObj} (l2 : JObj) (k : String) {v : JVal}
    (h : jlookup l1 k = some v) : jlookup (l1 ++ l2) k = some v := by
  induction l1 with
  | nil => simp [jlookup] at h
  | cons a t ih =>
      rw [List.cons_append, jlookup_cons]
      rw [jlookup_cons] at h
      by_cases ha : (a.fst == k) = true
      · simpa [ha] using h
      · rw [Bool.not_eq_true] at ha
        rw [ha] at h ⊢
        simpa using ih h

theorem jlookup_append_none {l1 : JObj} (l2 : JObj) (k : String)
    (h : jlookup l1 k = none) : jlookup (l1 ++ l2) k = jlookup l2 k := by
  induction l1 with
  | nil => simp
  | cons a t ih =>
      rw [List.cons_append, jlookup_cons]
      rw [jlookup_cons] at h
      by_cases ha : (a.fst == k) = true
      · simp [ha] at h
      · rw [Bool.not_eq_true] at ha
        rw [ha] at h ⊢
        simpa using ih h

theorem jlookup_eq_none_iff (l : JObj) (k : String) :
    jlookup l k = none ↔ ∀ p ∈ l, (p.fst == k) = false := by
  constructor
  · intro h p hp
    rw [jlookup, Option.map_eq_none'] at h
    have := List.find?_eq_none.mp h p hp
    simpa using this
  · intro h
    rw [jlookup, Option.map_eq_none']
    exact List.find?_eq_none.mpr (fun p hp => by simp [h p hp])

theorem overlayEntry_fst (upd : JObj) (p : String × JVal) :
    (overlayEntry upd p).fst = p.fst := by
  unfold overlayEntry
  cases jlookup upd p.fst <;> rfl

theorem overlay_map_lookup (old upd : JObj) (k : String) :
    jlookup (old.map (overlayEntry upd)) k =
      (jlookup old k).map (fun w => (jlookup upd k).getD w) := by
  induction old with
  | nil => simp [jlookup]
  | cons a t ih =>
      rw [List.map_cons, jlookup_cons, jlookup_cons, overlayEntry_fst]
      by_cases ha : (a.fst == k) = true
      · have hk : a.fst = k := eq_of_beq ha
        subst hk
        cases h : jlookup upd a.fst <;> simp [overlayEntry, h, ha]
      · rw [Bool.not_eq_true] at ha
        simp [ha, ih]

theorem jlookup_filter_eq (l : JObj) (g : String × JVal → Bool) (k : String)
    (h : ∀ p, (p.fst == k) = true → g p = true) :
    jlookup (l.filter g) k = jlookup l k := by
  induction l with
  | nil => simp
  | cons a t ih =>
      rw [List.filter_cons]
      by_cases ha : (a.fst == k) = true
      · rw [h a ha]
        simp only [if_true, jlookup_cons, ha, reduceIte]
      · rw [Bool.not_eq_true] at ha
        cases hg : g a
        · simp [jlookup_cons, ha, ih]
        · simp [jlookup_cons, ha, ih]

/-- Keys the payload does not supply are preserved by the merge. -/
theorem overlay_lookup_none (old upd : JObj) (k : String)
    (h : jlookup upd k = none) :
    jlookup (overlay old upd) k = jlookup old k := by
  unfold overlay
  cases hold : jlookup old k with
  | some w =>
      apply jlookup_append_some
      rw [overlay_map_lookup, hold]
      simp [h]
  | none =>
      have hA : jlookup (old.map (overlayEntry upd)) k = none := by
        rw [overlay_map_lookup, hold]
        rfl
      rw [jlookup_append_none _ _ hA, jlookup_eq_none_iff]
      intro p hp
      exact (jlookup_eq_none_iff upd k).mp h p (List.mem_of_mem_filter hp)

/-- Keys the payload supplies end up in the merged record with the
payload value. -/
theorem overlay_lookup_some (old upd : JObj) (k : String) {v : JVal}
    (h : jlookup upd k = some v) :
    jlookup (overlay old upd) k = some v := by
  unfold overlay
  cases hold : jlookup old k with
  | some w =>
      apply jlookup_append_some
      rw [overlay_map_lookup, hold, h]
      rfl
  | none =>
      have hA : jlookup (old.map (overlayEntry upd)) k = none := by
        rw [overlay_map_lookup, hold]
        rfl
      rw [jlookup_append_none _ _ hA]
      rw [jlookup_filter_eq]
      · exact h
      · intro p hpk
        have hp : p.fst = k := eq_of_beq hpk
        rw [hp, hold]
        rfl

theorem fsLookup_write_self (fs : FS) (path : String) (r : JObj) :
    fsLookup (fsWrite fs path r) path = some r := by
  simp [fsLookup, fsWrite, List.find?_cons]

/-!
Characterizations of the update operation on its main paths.
-/

/-- The accepted-update path: readonly off, payload parsed with the
three editable keys present, record file present.  The handler submits
the merge (and, when requested, the render), writes one success
envelope, and the store holds the overlaid record. -/
theorem checkplotPost_success (fs : FS) (basedir cpfile : String) (j : JObj)
    (vi oi cm : JVal) (stp : Option String) (rok : Bool) (now : Int)
    (oldcp : JObj)
    (hname : (cpfile == "") = false)
    (hv : jlookup j "varinfo" = some vi)
    (ho : jlookup j "objectinfo" = some oi)
    (hc : jlookup j "comments" = some cm)
    (hfs : fsLookup fs (basedir ++ cpfile) = some oldcp) :
    checkplotPost false fs basedir cpfile (CPContents.ok (JVal.obj j))
        stp rok now =
      { responses :=
          [updateOkEnvelope false (basedir ++ cpfile) now (JVal.obj j)
            (if truthyOpt stp then
               (if rok then
                  JVal.str (String.replace (basedir ++ cpfile) ".pkl" ".png")
                else JVal.str "png making failed")
             else JVal.null)],
        sentStatus := 200,
        submissions := if truthyOpt stp then 2 else 1,
        fs := fsWrite fs (basedir ++ cpfile)
          (overlay oldcp
            [("varinfo", vi), ("objectinfo", oi), ("comments", cm)]),
        raised := false } := by
  cases htp : truthyOpt stp <;>
    simp [checkplotPost, checkplotPostTry, postStepMissing, postStepNF,
          postStepMerge, respondFinish, postExceptHandler, hname, hv, ho, hc,
          hfs, htp, pWriteE, pFinish, PSt.toOut]

/-- The missing-editable-key path: readonly off, payload parses to a
dict lacking varinfo, objectinfo or comments.  The subscript raises
before the store is consulted; the except handler replies 500. -/
theorem checkplotPost_missing_key (fs : FS) (basedir cpfile : String)
    (j : JObj) (stp : Option String) (rok : Bool) (now : Int)
    (hname : (cpfile == "") = false)
    (hmiss : jlookup j "varinfo" = none ∨ jlookup j "objectinfo" = none ∨
      jlookup j "comments" = none) :
    checkplotPost false fs basedir cpfile (CPContents.ok (JVal.obj j))
        stp rok now =
      { responses :=
          [errEnv "checkplot update failed because of an exception" false],
        sentStatus := 500, submissions := 0, fs := fs, raised := false } := by
  rcases hmiss with h | h | h
  · simp [checkplotPost, checkplotPostTry, postStepMissing, respondFinish,
      postExceptHandler, hname, h, pWriteE, pFinish, PSt.toOut]
  · cases hv : jlookup j "varinfo" <;>
      simp [checkplotPost, checkplotPostTry, postStepMissing, respondFinish,
        postExceptHandler, hname, hv, h, pWriteE, pFinish, PSt.toOut]
  · cases hv : jlookup j "varinfo" <;> cases ho : jlookup j "objectinfo" <;>
      simp [checkplotPost, checkplotPostTry, postStepMissing, respondFinish,
        postExceptHandler, hname, hv, ho, h, pWriteE, pFinish, PSt.toOut]

/-!
Envelope completeness facts.
-/

theorem envComplete_errEnv (m : String) (ro : Bool) :
    envComplete (errEnv m ro) = true := rfl

theorem envComplete_updateOk (ro : Bool) (p : String) (n : Int)
    (ch png : JVal) : envComplete (updateOkEnvelope ro p n ch png) = true :=
  rfl

theorem envComplete_loadOk (ro : Bool) (nm : String) (pp : LoadParts) :
    envComplete (loadOkEnvelope ro nm pp) = true := rfl

/-- Appending one complete envelope keeps a response list complete. -/
theorem responses_snoc_complete {l : List JObj} {env : JObj}
    (hl : ∀ x ∈ l, envComplete x = true) (henv : envComplete env = true) :
    ∀ x ∈ l ++ [env], envComplete x = true := by
  intro x hx
  rcases List.mem_append.mp hx with h | h
  · exact hl x h
  · rw [List.mem_singleton.mp h]
    exact henv

/-- The state carried by either verdict of the try/except body. -/
def exSt : Except PSt PSt → PSt
  | Except.ok s => s
  | Except.error s => s

/-- A write-then-finish leaves only complete envelopes in the response
list whenever the envelope it writes is complete. -/
theorem respondFinish_responses (st : PSt) (env : JObj)
    (hst : ∀ x ∈ st.responses, envComplete x = true)
    (henv : envComplete env = true) :
    ∀ x ∈ (exSt (respondFinish st env)).responses, envComplete x = true := by
  unfold respondFinish pWriteE
  cases hf : st.finished
  · simpa [hf, exSt, pFinish] using responses_snoc_complete hst henv
  · simpa [hf, exSt] using hst

theorem postStepMissing_responses (readonly : Bool) (cpfile : String)
    (c : CPContents) (st : PSt)
    (hst : ∀ x ∈ st.responses, envComplete x = true) :
    ∀ x ∈ (exSt (postStepMissing readonly cpfile c st)).responses,
      envComplete x = true := by
  unfold postStepMissing
  split
  · exact respondFinish_responses _ _ hst (envComplete_errEnv _ _)
  · simpa [exSt] using hst

theorem postStepNF_responses (readonly : Bool) (cpfpath : String) (st : PSt)
    (hst : ∀ x ∈ st.responses, envComplete x = true) :
    ∀ x ∈ (exSt (postStepNF readonly cpfpath st)).responses,
      envComplete x = true := by
  unfold postStepNF
  split
  · exact respondFinish_responses _ _ hst (envComplete_errEnv _ _)
  · simpa [exSt] using hst

theorem postStepMerge_responses (readonly : Bool) (cpfpath : String)
    (j updated : JObj) (stp : Option String) (rok : Bool) (now : Int)
    (st : PSt) (hst : ∀ x ∈ st.responses, envComplete x = true) :
    ∀ x ∈ (exSt (postStepMerge readonly cpfpath j updated stp rok now
        st)).responses, envComplete x = true := by
  unfold postStepMerge
  cases hfs : fsLookup st.fs cpfpath
  · simpa [hfs, exSt] using hst
  · simp only [hfs]
    split
    · exact respondFinish_responses _ _ hst (envComplete_updateOk _ _ _ _ _)
    · exact respondFinish_responses _ _ hst (envComplete_updateOk _ _ _ _ _)

/-- Every envelope the try body of the update operation ever writes has
the four fields, provided the incoming state only holds such
envelopes. -/
theorem checkplotPostTry_responses (readonly : Bool) (basedir cpfile : String)
    (c : CPContents) (stp : Option String) (rok : Bool) (now : Int) (st : PSt)
    (hst : ∀ x ∈ st.responses, envComplete x = true) :
    ∀ x ∈ (exSt (checkplotPostTry readonly basedir cpfile c stp rok now
        st)).responses, envComplete x = true := by
  unfold checkplotPostTry
  have h1 := postStepMissing_responses readonly cpfile c st hst
  cases hm : postStepMissing readonly cpfile c st with
  | error s => simpa [exSt, hm] using h1
  | ok s =>
      rw [hm] at h1
      simp only [exSt] at h1
      cases c with
      | missing => simpa [exSt] using h1
      | emptyStr => simpa [exSt] using h1
      | badJson => simpa [exSt] using h1
      | ok v =>
          cases v with
          | obj j =>
              cases hv : jlookup j "varinfo" with
              | none => simpa [exSt, hv] using h1
              | some vi =>
                  cases ho : jlookup j "objectinfo" with
                  | none => simpa [exSt, hv, ho] using h1
                  | some oi =>
                      cases hc : jlookup j "comments" with
                      | none => simpa [exSt, hv, ho, hc] using h1
                      | some cm =>
                          simp only [hv, ho, hc]
                          have h2 := postStepNF_responses readonly
                            (basedir ++ cpfile) s h1
                          cases hnf : postStepNF readonly (basedir ++ cpfile)
                              s with
                          | error s2 => simpa [exSt, hnf] using h2
                          | ok s2 =>
                              rw [hnf] at h2
                              simp only [exSt] at h2
                              exact postStepMerge_responses readonly
                                (basedir ++ cpfile) j _ stp rok now s2 h2
          | null => simpa [exSt] using h1
          | bool b => simpa [exSt] using h1
          | num n => simpa [exSt] using h1
          | str s2 => simpa [exSt] using h1
          | arr a => simpa [exSt] using h1

theorem postExceptHandler_responses (readonly : Bool) (r : Except PSt PSt)
    (h : ∀ x ∈ (exSt r).responses, envComplete x = true) :
    ∀ x ∈ (postExceptHandler readonly r).responses, envComplete x = true := by
  cases r with
  | ok st => simpa [postExceptHandler, PSt.toOut] using h
  | error st =>
      simp only [exSt] at h
      cases hf : st.finished <;>
        simp only [postExceptHandler, pWriteE, pFinish, PSt.toOut, hf]
      · simpa using responses_snoc_complete h (envComplete_errEnv _ _)
      · simpa using h

/-- Every envelope written by the update operation carries the four
fields status, message, readonly, result. -/
theorem checkplotPost_responses (readonly : Bool) (fs : FS)
    (basedir cpfile : String) (c : CPContents) (stp : Option String)
    (rok : Bool) (now : Int) :
    ∀ x ∈ (checkplotPost readonly fs basedir cpfile c stp rok now).responses,
      envComplete x = true := by
  unfold checkplotPost
  apply postExceptHandler_responses
  apply checkplotPostTry_responses
  cases readonly <;> simp [pFinish]
  exact envComplete_errEnv _ _

/-- Every envelope written by the load operation either carries the four
fields or is the missing-record-file envelope (which lacks readonly). -/
theorem checkplotGet_responses (readonly : Bool) (checkplots : List String)
    (fs : FS) (basedir : String) (fname : Option String) :
    ∀ x ∈ (checkplotGet readonly checkplots fs basedir fname).responses,
      envComplete x = true ∨
        ∃ p, x = errEnvNoRO ("couldn\x27t find checkplot " ++ p) := by
  intro x hx
  cases fname with
  | none =>
      refine Or.inl ?_
      simp only [checkplotGet, List.mem_singleton] at hx
      rw [hx]
      exact envComplete_errEnv _ _
  | some name =>
      by_cases hm : name ∈ checkplots
      · simp only [checkplotGet, if_pos hm] at hx
        cases hfs : fsLookup fs (basedir ++ name) with
        | none =>
            simp [hfs] at hx
            exact Or.inr ⟨basedir ++ name, hx⟩
        | some cp =>
            simp only [hfs] at hx
            cases hassm : assembleLoadEnvelope readonly name cp with
            | none => simp [hassm] at hx
            | some env =>
                simp [hassm] at hx
                rcases Option.map_eq_some'.mp hassm with ⟨pp, hpp, henv⟩
                refine Or.inl ?_
                rw [hx, ← henv]
                exact envComplete_loadOk _ _ _
      · refine Or.inl ?_
        simp only [checkplotGet, if_neg hm, List.mem_singleton] at hx
        rw [hx]
        exact envComplete_errEnv _ _

/-- Every envelope written by the tool-dispatch operation either carries
the four fields or is the missing-record-file envelope. -/
theorem lctoolGet_responses (readonly : Bool) (checkplots : List String)
    (fs : FS) (basedir : String) (cpfile : Option String)
    (uriArgs : List (String × String)) :
    ∀ x ∈ (lctoolGet readonly checkplots fs basedir cpfile uriArgs).responses,
      envComplete x = true ∨
        ∃ p, x = errEnvNoRO ("couldn\x27t find checkplot " ++ p) := by
  intro x hx
  cases cpfile with
  | none =>
      refine Or.inl ?_
      simp only [lctoolGet, List.mem_singleton] at hx
      rw [hx]
      exact envComplete_errEnv _ _
  | some name =>
      by_cases hm : name ∈ checkplots
      · simp only [lctoolGet, if_pos hm] at hx
        cases hfs : fsLookup fs (basedir ++ name) with
        | none =>
            simp [hfs] at hx
            exact Or.inr ⟨basedir ++ name, hx⟩
        | some cp => simp [hfs] at hx
      · refine Or.inl ?_
        simp only [lctoolGet, if_neg hm, List.mem_singleton] at hx
        rw [hx]
        exact envComplete_errEnv _ _

/-!
Claim theorems.
-/

/-- C5: a load request whose identifier is not in the project manifest
is answered with exactly the envelope status error, message saying the
checkplot does not exist, the readonly flag and a null result; no
executor task is submitted and storage is never touched, whatever the
record store holds at that name. -/
theorem c5_load_unknown_identifier (readonly : Bool)
    (checkplots : List String) (fs : FS) (basedir name : String)
    (h : name ∉ checkplots) :
    checkplotGet readonly checkplots fs basedir (some name) =
      { responses := [errEnv "This checkplot doesn\x27t exist." readonly],
        submissions := 0, fsTouches := [], raised := false } := by
  simp [checkplotGet, h]

/-- C5 witness: ghost.pkl is present on disk but not in the manifest;
the load is rejected with the fixed envelope and storage is never
consulted. -/
theorem c5_witness :
    checkplotGet false ["obj1.pkl"] [("/project/ghost.pkl", rec1)]
        "/project/" (some "ghost.pkl") =
      { responses := [errEnv "This checkplot doesn\x27t exist." false],
        submissions := 0, fsTouches := [], raised := false } :=
  c5_load_unknown_identifier false ["obj1.pkl"]
    [("/project/ghost.pkl", rec1)] "/project/" "ghost.pkl" (by decide)

/-- C4: with obj1.pkl in the manifest but its record file absent, the
load path writes the envelope whose message contains the couldnt-find
text, yet processing does not stop there: the pickle read is still
submitted to the executor (one submission, two storage touches) and the
resulting exception escapes the handler. -/
theorem c4_missing_file_keeps_processing :
    checkplotGet false ["obj1.pkl"] [] "/project/" (some "obj1.pkl") =
      { responses :=
          [errEnvNoRO "couldn\x27t find checkplot /project/obj1.pkl"],
        submissions := 1,
        fsTouches := ["/project/obj1.pkl", "/project/obj1.pkl"],
        raised := true } := rfl

/-- C3 counterexample: at a concrete load request (manifest member,
record file absent) the worker exception escapes the handler to the
transport layer as a raw fault, so not every error is converted into a
structured envelope. -/
theorem c3_counterexample :
    (checkplotGet false ["obj1.pkl"] [] "/project/"
      (some "obj1.pkl")).raised = true := rfl

/-- C3 amended: the update (POST) path catches exceptions raised while
its response is unfinished and converts them into the 500 exception
envelope, but the load (GET) path has no catch boundary: with the
record file absent the worker exception propagates uncaught. -/
theorem c3_amended :
    (∀ (fs : FS) (basedir cpfile : String) (c : CPContents)
        (stp : Option String) (rok : Bool) (now : Int),
      cpfile ≠ "" → c ≠ CPContents.missing → c ≠ CPContents.emptyStr →
      (fsLookup fs (basedir ++ cpfile)).isSome = true →
      (checkplotPost false fs basedir cpfile c stp rok now).raised =
        false) ∧
    (∀ (readonly : Bool) (checkplots : List String) (fs : FS)
        (basedir name : String),
      name ∈ checkplots → fsLookup fs (basedir ++ name) = none →
      (checkplotGet readonly checkplots fs basedir (some name)).raised =
        true) := by
  constructor
  · intro fs basedir cpfile c stp rok now hcp hm he hfs
    have hb : (cpfile == "") = false := beq_eq_false_iff_ne.mpr hcp
    cases c with
    | missing => exact absurd rfl hm
    | emptyStr => exact absurd rfl he
    | badJson =>
        simp [checkplotPost, checkplotPostTry, postStepMissing,
          postExceptHandler, respondFinish, pWriteE, pFinish, PSt.toOut, hb]
    | ok v =>
        cases v with
        | obj j =>
            cases hv : jlookup j "varinfo" with
            | none =>
                rw [checkplotPost_missing_key fs basedir cpfile j stp rok now
                  hb (Or.inl hv)]
            | some vi =>
                cases ho : jlookup j "objectinfo" with
                | none =>
                    rw [checkplotPost_missing_key fs basedir cpfile j stp rok
                      now hb (Or.inr (Or.inl ho))]
                | some oi =>
                    cases hc : jlookup j "comments" with
                    | none =>
                        rw [checkplotPost_missing_key fs basedir cpfile j stp
                          rok now hb (Or.inr (Or.inr hc))]
                    | some cm =>
                        rcases Option.isSome_iff_exists.mp hfs with
                          ⟨oldcp, hold⟩
                        rw [checkplotPost_success fs basedir cpfile j vi oi cm
                          stp rok now oldcp hb hv ho hc hold]
        | null =>
            simp [checkplotPost, checkplotPostTry, postStepMissing,
              postExceptHandler, respondFinish, pWriteE, pFinish, PSt.toOut,
              hb]
        | bool b =>
            simp [checkplotPost, checkplotPostTry, postStepMissing,
              postExceptHandler, respondFinish, pWriteE, pFinish, PSt.toOut,
              hb]
        | num n =>
            simp [checkplotPost, checkplotPostTry, postStepMissing,
              postExceptHandler, respondFinish, pWriteE, pFinish, PSt.toOut,
              hb]
        | str s2 =>
            simp [checkplotPost, checkplotPostTry, postStepMissing,
              postExceptHandler, respondFinish, pWriteE, pFinish, PSt.toOut,
              hb]
        | arr a =>
            simp [checkplotPost, checkplotPostTry, postStepMissing,
              postExceptHandler, respondFinish, pWriteE, pFinish, PSt.toOut,
              hb]
  · intro ro cps fs basedir name hmem hfs
    simp [checkplotGet, hmem, hfs]

/-- C3 witness: a malformed-JSON update on an existing record is
answered without propagating (the except handler replies), while the
load of a manifest member with a missing file propagates. -/
theorem c3_witness :
    (checkplotPost false fs1 "/project/" "obj1.pkl" CPContents.badJson
        none false 0).raised = false ∧
    (checkplotGet false ["obj2.pkl"] [] "/project/"
        (some "obj2.pkl")).raised = true :=
  ⟨c3_amended.1 fs1 "/project/" "obj1.pkl" CPContents.badJson none false 0
      (by decide) (fun h => CPContents.noConfusion h)
      (fun h => CPContents.noConfusion h) rfl,
   c3_amended.2 false ["obj2.pkl"] [] "/project/" "obj2.pkl"
      (List.mem_singleton.mpr rfl) rfl⟩

/-- C2: a tool-dispatch request with toolKind psearch-bls and
startPeriod greater than endPeriod still submits the pickle-load task
to the worker pool (the submission count for the request is 1, not 0),
writes no InvalidParameter envelope at all, and yields the very same
outcome as the request with valid parameters: the handler never reads
the tool arguments. -/
theorem c2_no_parameter_validation :
    lctoolGet false ["obj1.pkl"] fs1 "/project/" (some "obj1.pkl")
        [("lctool", "psearch-bls"), ("startp", "2.0"), ("endp", "1.0")] =
      { responses := [], submissions := 1,
        fsTouches := ["/project/obj1.pkl", "/project/obj1.pkl"],
        raised := false } ∧
    lctoolGet false ["obj1.pkl"] fs1 "/project/" (some "obj1.pkl")
        [("lctool", "psearch-bls"), ("startp", "2.0"), ("endp", "1.0")] =
      lctoolGet false ["obj1.pkl"] fs1 "/project/" (some "obj1.pkl")
        [("lctool", "psearch-bls"), ("startp", "1.0"), ("endp", "2.0")] :=
  ⟨rfl, rfl⟩

/-- C1: with readonly mode active the update POST sends the 400
readonly envelope but then keeps executing: the record file is
rewritten on disk (its comments field changes from the old to the new
value), and likewise the checkplot-list POST rewrites the manifest file
once; on-disk bytes do not stay unchanged. -/
theorem c1_readonly_still_writes :
    (checkplotPost true fs1 "/project/" "obj1.pkl"
        (CPContents.ok (JVal.obj payload1)) none false 0).sentStatus =
      400 ∧
    (checkplotPost true fs1 "/project/" "obj1.pkl"
        (CPContents.ok (JVal.obj payload1)) none false 0).responses =
      [errEnv "checkplotserver is in readonly mode. no updates allowed."
        true] ∧
    ((fsLookup (checkplotPost true fs1 "/project/" "obj1.pkl"
        (CPContents.ok (JVal.obj payload1)) none false 0).fs
        "/project/obj1.pkl").bind (fun r => jlookup r "comments")) =
      some (JVal.str "looks periodic") ∧
    ((fsLookup fs1 "/project/obj1.pkl").bind
        (fun r => jlookup r "comments")) = some (JVal.str "old comment") ∧
    (cplistPost true proj1 (some "obj1")
        (CPContents.ok (JVal.str "vardone"))).manifestWrites.length = 1 ∧
    (cplistPost true proj1 (some "obj1")
        (CPContents.ok (JVal.str "vardone"))).sentStatus = 400 :=
  ⟨rfl, rfl, rfl, rfl, rfl, rfl⟩

/-- C6: an accepted update whose payload supplies varinfo, objectinfo
and comments persists exactly the overlaid record: the three editable
fields now hold the payload values and every other field of the merged
record equals its pre-update value — whatever extra keys the payload
carries, only those three are merged. -/
theorem c6_merge_exactly_three_fields (fs : FS) (basedir cpfile : String)
    (j oldcp : JObj) (vi oi cm : JVal) (stp : Option String) (rok : Bool)
    (now : Int)
    (hname : cpfile ≠ "")
    (hv : jlookup j "varinfo" = some vi)
    (ho : jlookup j "objectinfo" = some oi)
    (hc : jlookup j "comments" = some cm)
    (hfs : fsLookup fs (basedir ++ cpfile) = some oldcp) :
    fsLookup (checkplotPost false fs basedir cpfile
        (CPContents.ok (JVal.obj j)) stp rok now).fs (basedir ++ cpfile) =
      some (overlay oldcp
        [("varinfo", vi), ("objectinfo", oi), ("comments", cm)]) ∧
    jlookup (overlay oldcp
        [("varinfo", vi), ("objectinfo", oi), ("comments", cm)])
      "varinfo" = some vi ∧
    jlookup (overlay oldcp
        [("varinfo", vi), ("objectinfo", oi), ("comments", cm)])
      "objectinfo" = some oi ∧
    jlookup (overlay oldcp
        [("varinfo", vi), ("objectinfo", oi), ("comments", cm)])
      "comments" = some cm ∧
    (∀ k, k ≠ "varinfo" → k ≠ "objectinfo" → k ≠ "comments" →
      jlookup (overlay oldcp
          [("varinfo", vi), ("objectinfo", oi), ("comments", cm)]) k =
        jlookup oldcp k) := by
  have hb : (cpfile == "") = false := beq_eq_false_iff_ne.mpr hname
  refine ⟨?_, ?_, ?_, ?_, ?_⟩
  · rw [checkplotPost_success fs basedir cpfile j vi oi cm stp rok now oldcp
      hb hv ho hc hfs]
    exact fsLookup_write_self _ _ _
  · exact overlay_lookup_some _ _ _ rfl
  · exact overlay_lookup_some _ _ _ rfl
  · exact overlay_lookup_some _ _ _ rfl
  · intro k h1 h2 h3
    apply overlay_lookup_none
    rw [jlookup_eq_none_iff]
    intro p hp
    simp only [List.mem_cons, List.not_mem_nil, or_false] at hp
    rcases hp with h | h | h
    · rw [h]
      exact beq_eq_false_iff_ne.mpr (fun hk => h1 hk.symm)
    · rw [h]
      exact beq_eq_false_iff_ne.mpr (fun hk => h2 hk.symm)
    · rw [h]
      exact beq_eq_false_iff_ne.mpr (fun hk => h3 hk.symm)

/-- C6 witness: the concrete update of obj1.pkl with payload1 leaves
the store holding exactly the overlay of the old record with the three
editable fields. -/
theorem c6_witness :
    fsLookup (checkplotPost false fs1 "/project/" "obj1.pkl"
        (CPContents.ok (JVal.obj payload1)) none false 0).fs
        "/project/obj1.pkl" =
      some (overlay rec1
        [("varinfo", JVal.obj [("varperiod", JVal.num 7)]),
         ("objectinfo", JVal.obj [("ra", JVal.num 64),
            ("objecttags", JVal.str "interesting")]),
         ("comments", JVal.str "looks periodic")]) :=
  (c6_merge_exactly_three_fields fs1 "/project/" "obj1.pkl" payload1 rec1
    (JVal.obj [("varperiod", JVal.num 7)])
    (JVal.obj [("ra", JVal.num 64), ("objecttags", JVal.str "interesting")])
    (JVal.str "looks periodic") none false 0
    (by decide) rfl rfl rfl rfl).1

/-- C7: when the merge succeeds and the requested render then fails
(no png appears on disk), the merge is not rolled back — the store
holds the merged record — while the single response envelope still
reports status success and carries the explicit failure marker in its
cpfpng field, sent with status 200. -/
theorem c7_render_failure_keeps_merge (fs : FS) (basedir cpfile : String)
    (j oldcp : JObj) (vi oi cm : JVal) (s : String) (now : Int)
    (hname : cpfile ≠ "") (hs : s ≠ "")
    (hv : jlookup j "varinfo" = some vi)
    (ho : jlookup j "objectinfo" = some oi)
    (hc : jlookup j "comments" = some cm)
    (hfs : fsLookup fs (basedir ++ cpfile) = some oldcp) :
    (checkplotPost false fs basedir cpfile (CPContents.ok (JVal.obj j))
        (some s) false now).responses =
      [updateOkEnvelope false (basedir ++ cpfile) now (JVal.obj j)
        (JVal.str "png making failed")] ∧
    (checkplotPost false fs basedir cpfile (CPContents.ok (JVal.obj j))
        (some s) false now).sentStatus = 200 ∧
    fsLookup (checkplotPost false fs basedir cpfile
        (CPContents.ok (JVal.obj j)) (some s) false now).fs
        (basedir ++ cpfile) =
      some (overlay oldcp
        [("varinfo", vi), ("objectinfo", oi), ("comments", cm)]) := by
  have hb : (cpfile == "") = false := beq_eq_false_iff_ne.mpr hname
  have htp : truthyOpt (some s) = true := by
    simp only [truthyOpt, bne_iff_ne, ne_eq]
    exact hs
  have he := checkplotPost_success fs basedir cpfile j vi oi cm (some s)
    false now oldcp hb hv ho hc hfs
  rw [he]
  refine ⟨by simp [htp], rfl, ?_⟩
  exact fsLookup_write_self _ _ _

/-- C7 witness: the concrete update of obj1.pkl with savetopng set and
a failing renderer reports success with the failure marker while the
merged record is on disk. -/
theorem c7_witness :
    (checkplotPost false fs1 "/project/" "obj1.pkl"
        (CPContents.ok (JVal.obj payload1)) (some "true") false 7).responses =
      [updateOkEnvelope false "/project/obj1.pkl" 7 (JVal.obj payload1)
        (JVal.str "png making failed")] :=
  (c7_render_failure_keeps_merge fs1 "/project/" "obj1.pkl" payload1 rec1
    (JVal.obj [("varperiod", JVal.num 7)])
    (JVal.obj [("ra", JVal.num 64), ("objecttags", JVal.str "interesting")])
    (JVal.str "looks periodic") "true" 7
    (by decide) (by decide) rfl rfl rfl rfl).1

/-- C8: an update whose parsed payload lacks any of varinfo, objectinfo
or comments raises at the subscript — a missing key is not treated as
no-change — and the exception is converted into the 500 exception
envelope with no pool submission and no change to the record store. -/
theorem c8_missing_payload_key_raises (fs : FS) (basedir cpfile : String)
    (j : JObj) (stp : Option String) (rok : Bool) (now : Int)
    (hname : cpfile ≠ "")
    (hmiss : jlookup j "varinfo" = none ∨ jlookup j "objectinfo" = none ∨
      jlookup j "comments" = none) :
    checkplotPost false fs basedir cpfile (CPContents.ok (JVal.obj j))
        stp rok now =
      { responses :=
          [errEnv "checkplot update failed because of an exception" false],
        sentStatus := 500, submissions := 0, fs := fs, raised := false } :=
  checkplotPost_missing_key fs basedir cpfile j stp rok now
    (beq_eq_false_iff_ne.mpr hname) hmiss

/-- C8 witness: a payload carrying only objectinfo and comments is
answered with the 500 exception envelope and the store is unchanged. -/
theorem c8_witness :
    checkplotPost false fs1 "/project/" "obj1.pkl"
        (CPContents.ok (JVal.obj [("objectinfo", JVal.obj []),
          ("comments", JVal.str "x")])) none false 0 =
      { responses :=
          [errEnv "checkplot update failed because of an exception" false],
        sentStatus := 500, submissions := 0, fs := fs1, raised := false } :=
  c8_missing_payload_key_raises fs1 "/project/" "obj1.pkl"
    [("objectinfo", JVal.obj []), ("comments", JVal.str "x")] none false 0
    (by decide) (Or.inl rfl)

/-- C9 counterexample: an envelope produced by the load operation — the
missing-record-file error — does not carry all four fields (its
readonly key is absent). -/
theorem c9_counterexample :
    ((checkplotGet false ["obj1.pkl"] [] "/project/"
        (some "obj1.pkl")).responses.map envComplete) = [false] ∧
    jlookup (errEnvNoRO "couldn\x27t find checkplot /project/obj1.pkl")
      "readonly" = none := ⟨rfl, rfl⟩

/-- C9 amended: every envelope produced by the load, update and
tool-dispatch operations carries status, message, readonly and result,
except the missing-record-file error envelopes of the load and
tool-dispatch GET paths, which carry status, message and result but
omit readonly. -/
theorem c9_envelope_fields :
    (∀ (ro : Bool) (cps : List String) (fs : FS) (bd : String)
        (fname : Option String),
      ∀ x ∈ (checkplotGet ro cps fs bd fname).responses,
        envComplete x = true ∨
          ∃ p, x = errEnvNoRO ("couldn\x27t find checkplot " ++ p)) ∧
    (∀ (ro : Bool) (fs : FS) (bd cpfile : String) (c : CPContents)
        (stp : Option String) (rok : Bool) (now : Int),
      ∀ x ∈ (checkplotPost ro fs bd cpfile c stp rok now).responses,
        envComplete x = true) ∧
    (∀ (ro : Bool) (cps : List String) (fs : FS) (bd : String)
        (cpfile : Option String) (args : List (String × String)),
      ∀ x ∈ (lctoolGet ro cps fs bd cpfile args).responses,
        envComplete x = true ∨
          ∃ p, x = errEnvNoRO ("couldn\x27t find checkplot " ++ p)) ∧
    (∀ m : String, jlookup (errEnvNoRO m) "readonly" = none) :=
  ⟨checkplotGet_responses, checkplotPost_responses, lctoolGet_responses,
   fun _ => rfl⟩

/-- C9 witness: the no-checkplot-given envelope of the load operation is
complete, and the missing-record-file envelope shape omits readonly. -/
theorem c9_witness :
    (envComplete (errEnv "No checkplot provided to load." false) = true ∨
      ∃ p, errEnv "No checkplot provided to load." false =
        errEnvNoRO ("couldn\x27t find checkplot " ++ p)) ∧
    jlookup (errEnvNoRO "couldn\x27t find checkplot /project/obj2.pkl")
      "readonly" = none :=
  ⟨c9_envelope_fields.1 false [] [] "/project/" none
      (errEnv "No checkplot provided to load." false)
      (List.mem_singleton.mpr rfl),
   c9_envelope_fields.2.2.2 "couldn\x27t find checkplot /project/obj2.pkl"⟩

/-- C10: the manifest read is not side-effect free: when the shared
project dict lacks a reviewed mapping, the read appends an empty one to
the shared state (so the state afterwards differs from the state
before), returns that mutated state as the response body, and the
mapping is present after every such read. -/
theorem c10_manifest_read_mutates (p : JObj)
    (h : jlookup p "reviewed" = none) :
    (cplistGet p).fst = p ++ [("reviewed", JVal.obj [])] ∧
    (cplistGet p).snd = (cplistGet p).fst ∧
    jlookup (cplistGet p).fst "reviewed" = some (JVal.obj []) ∧
    (cplistGet p).fst ≠ p := by
  have h1 : (cplistGet p).fst = p ++ [("reviewed", JVal.obj [])] := by
    simp [cplistGet, h]
  refine ⟨h1, rfl, ?_, ?_⟩
  · rw [h1, jlookup_append_none _ _ h]
    rfl
  · rw [h1]
    intro he
    have hlen := congrArg List.length he
    simp at hlen

/-- C10 witness: reading the manifest of a project without a reviewed
key returns the project with an empty reviewed mapping appended. -/
theorem c10_witness :
    (cplistGet [("checkplots", JVal.arr [JVal.str "obj1.pkl"])]).fst =
      [("checkplots", JVal.arr [JVal.str "obj1.pkl"]),
       ("reviewed", JVal.obj [])] ∧
    jlookup (cplistGet
        [("checkplots", JVal.arr [JVal.str "obj1.pkl"])]).fst "reviewed" =
      some (JVal.obj []) :=
  ⟨(c10_manifest_read_mutates
      [("checkplots", JVal.arr [JVal.str "obj1.pkl"])] rfl).1,
   (c10_manifest_read_mutates
      [("checkplots", JVal.arr [JVal.str "obj1.pkl"])] rfl).2.2.1⟩
